import Mathlib

/-!
A verification development for the salary-analysis dashboard (`src/app.py`).

The dashboard loads a CSV table with one row per (industry, year) — columns
`Отрасль` (industry), `Год` (year), `Зарплата` (nominal salary),
`Реальная_зарплата` (real salary), `Инфляция` (annual inflation %),
`Кумулятивная_инфляция` (cumulative inflation factor) — filters it by the
user's industry/year-range selection, and computes growth metrics via
`calculate_metrics`.

We embed the rows as a list of records with exact rational salary fields
(the CSV holds decimal numbers; Python's float arithmetic is modelled by
exact arithmetic over ℚ, with the fractional power `x ** (1/years)` modelled
by `Real.rpow`).  Python's `ZeroDivisionError` — raised by `/` when the
divisor is zero, both for ints (`1/years_diff`) and floats
(`end_salary/start_salary`) — is modelled by an `Except` error value.
-/

/-- One row of `data/salary_analysis_data.csv`.  Field names transliterate
the CSV column names used in `app.py`. -/
structure Record where
  otrasl : String               -- Отрасль (industry)
  god : Int                     -- Год (year)
  zarplata : ℚ                  -- Зарплата (nominal salary)
  realnaya_zarplata : ℚ         -- Реальная_зарплата (real salary)
  inflyatsiya : ℚ               -- Инфляция (annual inflation, %)
  kumulyativnaya_inflyatsiya : ℚ -- Кумулятивная_инфляция (cumulative factor)
  deriving Repr, DecidableEq

/-- The dict returned by `calculate_metrics` on success: exactly the eight
keys of the Python literal at `app.py` lines 70–79.  The first six values
are produced by exact field reads and divisions (modelled in ℚ); the two
annualized rates involve a fractional power and live in ℝ. -/
structure Metrics where
  start_salary : ℚ
  end_salary : ℚ
  start_real_salary : ℚ
  end_real_salary : ℚ
  nominal_growth : ℚ
  real_growth : ℚ
  avg_nominal_growth : ℝ
  avg_real_growth : ℝ

/-- A Python exception escaping `calculate_metrics`.  The only one the body
can raise on well-typed input is `ZeroDivisionError`, from `/` with a zero
divisor. -/
inductive PyError where
  | zeroDivision
  deriving Repr, DecidableEq

/-- `calculate_metrics(data, sector, start_year, end_year)` from
`app.py` lines 49–79, modelled faithfully:

* `sector_data = data[data['Отрасль'] == sector]` — a row filter;
* `start_data` / `end_data` — row filters of `sector_data` by year;
* `if len(start_data) == 0 or len(end_data) == 0: return None` — the two
  empty cases of the match;
* `.iloc[0]` — the first row of each (both nonempty in the last case);
* the divisions `end_salary/start_salary`, `end_real_salary/start_real_salary`
  and `1/years_diff` raise `ZeroDivisionError` in Python when the divisor is
  zero, modelled as `.error .zeroDivision`, checked in the order Python
  evaluates them;
* `x ** (1/years_diff)` on positive floats is real exponentiation,
  modelled by `Real.rpow`.

Returns `.ok none` for Python `None`, `.ok (some m)` for the dict. -/
noncomputable def calculate_metrics (data : List Record) (sector : String)
    (start_year end_year : Int) : Except PyError (Option Metrics) :=
  let sector_data := data.filter (fun r => r.otrasl = sector)
  let start_data := sector_data.filter (fun r => r.god = start_year)
  let end_data := sector_data.filter (fun r => r.god = end_year)
  match start_data, end_data with
  | [], _ => .ok none
  | _, [] => .ok none
  | s :: _, e :: _ =>
    let start_salary := s.zarplata
    let end_salary := e.zarplata
    let start_real_salary := s.realnaya_zarplata
    let end_real_salary := e.realnaya_zarplata
    if start_salary = 0 then .error .zeroDivision
    else
      let nominal_growth := end_salary / start_salary
      if start_real_salary = 0 then .error .zeroDivision
      else
        let real_growth := end_real_salary / start_real_salary
        let years_diff := end_year - start_year
        if years_diff = 0 then .error .zeroDivision
        else
          let avg_nominal_growth : ℝ :=
            ((nominal_growth : ℝ) ^ ((1 : ℝ) / (years_diff : ℝ)) - 1) * 100
          let avg_real_growth : ℝ :=
            ((real_growth : ℝ) ^ ((1 : ℝ) / (years_diff : ℝ)) - 1) * 100
          .ok (some
            { start_salary := start_salary
              end_salary := end_salary
              start_real_salary := start_real_salary
              end_real_salary := end_real_salary
              nominal_growth := nominal_growth
              real_growth := real_growth
              avg_nominal_growth := avg_nominal_growth
              avg_real_growth := avg_real_growth })

/-- The filtering step at `app.py` lines 109–113:
`data[(data['Отрасль'].isin(selected_sectors)) & (data['Год'] >= lo) & (data['Год'] <= hi)]`
where `(lo, hi) = year_range`. -/
def filtered_data (data : List Record) (selected_sectors : List String)
    (lo hi : Int) : List Record :=
  data.filter (fun r =>
    selected_sectors.contains r.otrasl && lo ≤ r.god && r.god ≤ hi)

/-- The spec's data-model invariant (§3): nominal and real salary are both
strictly positive in every row. -/
def PositiveSalaries (data : List Record) : Prop :=
  ∀ r ∈ data, 0 < r.zarplata ∧ 0 < r.realnaya_zarplata

instance : DecidablePred PositiveSalaries := fun data =>
  inferInstanceAs (Decidable (∀ r ∈ data, _ ∧ _))

/-- The first row pandas' `.iloc[0]` reads for `sector` at `year`:
head of the same two-stage filter `calculate_metrics` performs. -/
def firstRecord (data : List Record) (sector : String) (year : Int) :
    Option Record :=
  ((data.filter (fun r => r.otrasl = sector)).filter
    (fun r => r.god = year)).head?

/-- The example dataset of spec §8: IT salaries at 2000 and 2020. -/
def specExample : List Record :=
  [⟨"IT", 2000, 10000, 10000, 0, 1⟩, ⟨"IT", 2020, 80000, 40000, 0, 1⟩]

/-- A dataset with two rows for each of (IT, 2000) and (IT, 2020). -/
def dupExample : List Record :=
  [⟨"IT", 2000, 10000, 10000, 0, 1⟩, ⟨"IT", 2000, 55555, 44444, 0, 1⟩,
   ⟨"IT", 2020, 80000, 40000, 0, 1⟩, ⟨"IT", 2020, 77777, 66666, 0, 1⟩]

/-- The metrics dict `calculate_metrics` produces for the spec §8 example
dataset over 2000–2020 (values left in the unreduced form the code
computes: `80000 / 10000 = 8`, `40000 / 10000 = 4`, `2020 - 2000 = 20`). -/
noncomputable def exampleMetrics : Metrics :=
  { start_salary := 10000
    end_salary := 80000
    start_real_salary := 10000
    end_real_salary := 40000
    nominal_growth := 80000 / 10000
    real_growth := 40000 / 10000
    avg_nominal_growth :=
      (((80000 / 10000 : ℚ) : ℝ) ^ ((1 : ℝ) / ((2020 - 2000 : ℤ) : ℝ)) - 1) * 100
    avg_real_growth :=
      (((40000 / 10000 : ℚ) : ℝ) ^ ((1 : ℝ) / ((2020 - 2000 : ℤ) : ℝ)) - 1) * 100 }

/-- What the main page shows for a selection: either the rendered body,
whose per-sector metric values are the results of `calculate_metrics`
(`app.py` lines 117–344), or the warning of line 347. -/
inductive AppOutcome where
  | rendered (results : List (Except PyError (Option Metrics)))
  | warning (message : String)

/-- The top-level branch of the page body, `app.py` lines 115 and 346–347:
`if len(filtered_data) > 0:` render the body — which calls
`calculate_metrics(data, sector, year_range[0], year_range[1])` for each
selected sector (line 123) — `else: st.warning(...)` with no computation. -/
noncomputable def render_main (data : List Record)
    (selected_sectors : List String) (lo hi : Int) : AppOutcome :=
  if 0 < (filtered_data data selected_sectors lo hi).length then
    .rendered (selected_sectors.map (fun sector =>
      calculate_metrics data sector lo hi))
  else
    .warning "Для выбранных параметров данные не найдены. Попробуйте изменить фильтры."

/-- On success the metrics are exactly those computed from the first matching
rows. -/
theorem calculate_metrics_eq_of_found (data : List Record) (sector : String)
    (sy ey : Int) (s e : Record)
    (hs : firstRecord data sector sy = some s)
    (he : firstRecord data sector ey = some e)
    (hzs : s.zarplata ≠ 0) (hrs : s.realnaya_zarplata ≠ 0)
    (hyy : ey - sy ≠ 0) :
    calculate_metrics data sector sy ey = .ok (some
      { start_salary := s.zarplata
        end_salary := e.zarplata
        start_real_salary := s.realnaya_zarplata
        end_real_salary := e.realnaya_zarplata
        nominal_growth := e.zarplata / s.zarplata
        real_growth := e.realnaya_zarplata / s.realnaya_zarplata
        avg_nominal_growth :=
          (((e.zarplata / s.zarplata : ℚ) : ℝ) ^ ((1 : ℝ) / ((ey - sy : ℤ) : ℝ)) - 1) * 100
        avg_real_growth :=
          (((e.realnaya_zarplata / s.realnaya_zarplata : ℚ) : ℝ) ^ ((1 : ℝ) / ((ey - sy : ℤ) : ℝ)) - 1) * 100 }) := by
  unfold firstRecord at hs he
  unfold calculate_metrics
  rcases h1 : (data.filter (fun r => r.otrasl = sector)).filter (fun r => r.god = sy) with _ | ⟨a, t1⟩
  · rw [h1] at hs; simp at hs
  rcases h2 : (data.filter (fun r => r.otrasl = sector)).filter (fun r => r.god = ey) with _ | ⟨b, t2⟩
  · rw [h2] at he; simp at he
  rw [h1] at hs; rw [h2] at he
  simp only [List.head?_cons, Option.some.injEq] at hs he
  subst hs; subst he
  simp only [h1, h2]
  rw [if_neg hzs, if_neg hrs, if_neg hyy]

/-- A found first record is a row of the dataset matching the industry and
year. -/
theorem firstRecord_mem (data : List Record) (sector : String) (year : Int)
    (s : Record) (hs : firstRecord data sector year = some s) :
    s ∈ data ∧ s.otrasl = sector ∧ s.god = year := by
  unfold firstRecord at hs
  have hmem := List.mem_of_mem_head? (Option.mem_def.mpr hs)
  simp only [List.mem_filter, decide_eq_true_eq] at hmem
  exact ⟨hmem.1.1, hmem.1.2, hmem.2⟩

/-- Inversion: a successful dict determines the first matching rows and the
exact values of every field. -/
theorem calculate_metrics_inv (data : List Record) (sector : String)
    (sy ey : Int) (m : Metrics)
    (hm : calculate_metrics data sector sy ey = .ok (some m)) :
    ∃ s e : Record,
      firstRecord data sector sy = some s ∧
      firstRecord data sector ey = some e ∧
      s.zarplata ≠ 0 ∧ s.realnaya_zarplata ≠ 0 ∧ ey - sy ≠ 0 ∧
      m = { start_salary := s.zarplata
            end_salary := e.zarplata
            start_real_salary := s.realnaya_zarplata
            end_real_salary := e.realnaya_zarplata
            nominal_growth := e.zarplata / s.zarplata
            real_growth := e.realnaya_zarplata / s.realnaya_zarplata
            avg_nominal_growth :=
              (((e.zarplata / s.zarplata : ℚ) : ℝ) ^ ((1 : ℝ) / ((ey - sy : ℤ) : ℝ)) - 1) * 100
            avg_real_growth :=
              (((e.realnaya_zarplata / s.realnaya_zarplata : ℚ) : ℝ) ^ ((1 : ℝ) / ((ey - sy : ℤ) : ℝ)) - 1) * 100 } := by
  unfold calculate_metrics at hm
  rcases h1 : (data.filter (fun r => r.otrasl = sector)).filter (fun r => r.god = sy) with _ | ⟨a, t1⟩
  · simp only [h1] at hm
    exact Option.noConfusion (Except.ok.inj hm)
  rcases h2 : (data.filter (fun r => r.otrasl = sector)).filter (fun r => r.god = ey) with _ | ⟨b, t2⟩
  · simp only [h1, h2] at hm
    exact Option.noConfusion (Except.ok.inj hm)
  simp only [h1, h2] at hm
  by_cases hzs : a.zarplata = 0
  · rw [if_pos hzs] at hm; simp at hm
  rw [if_neg hzs] at hm
  by_cases hrs : a.realnaya_zarplata = 0
  · rw [if_pos hrs] at hm; simp at hm
  rw [if_neg hrs] at hm
  by_cases hyy : ey - sy = 0
  · rw [if_pos hyy] at hm; simp at hm
  rw [if_neg hyy] at hm
  refine ⟨a, b, ?_, ?_, hzs, hrs, hyy, ?_⟩
  · unfold firstRecord; rw [h1]; rfl
  · unfold firstRecord; rw [h2]; rfl
  · simp only [Except.ok.injEq, Option.some.injEq] at hm
    exact hm.symm

/-- If the dataset has no row for `sector` at `year`, the corresponding
two-stage filter is empty. -/
theorem firstRecord_eq_none (data : List Record) (sector : String) (year : Int)
    (h : ∀ r ∈ data, ¬(r.otrasl = sector ∧ r.god = year)) :
    firstRecord data sector year = none := by
  unfold firstRecord
  rw [List.head?_eq_none_iff, List.filter_eq_nil_iff]
  intro r hr
  have := List.mem_filter.mp hr
  simp only [decide_eq_true_eq] at this ⊢
  exact fun hy => h r this.1 ⟨this.2, hy⟩

/-- Missing endpoint record: the calculator returns Python `None`. -/
theorem calculate_metrics_none (data : List Record) (sector : String)
    (sy ey : Int)
    (h : firstRecord data sector sy = none ∨ firstRecord data sector ey = none) :
    calculate_metrics data sector sy ey = .ok none := by
  unfold firstRecord at h
  unfold calculate_metrics
  rcases h with h | h <;> rw [List.head?_eq_none_iff] at h
  · simp only [h]
  · rcases h1 : (data.filter (fun r => r.otrasl = sector)).filter (fun r => r.god = sy) with _ | ⟨a, t1⟩
    · simp only [h1]
    · simp only [h1, h]

/-- In a dataset with strictly positive salaries, a found record has positive
salary fields. -/
theorem firstRecord_salary_pos (data : List Record) (sector : String)
    (year : Int) (s : Record) (hpos : PositiveSalaries data)
    (hs : firstRecord data sector year = some s) :
    0 < s.zarplata ∧ 0 < s.realnaya_zarplata :=
  hpos s (firstRecord_mem data sector year s hs).1

theorem exampleMetrics_eq :
    calculate_metrics specExample "IT" 2000 2020 = .ok (some exampleMetrics) := rfl

/-- The annualized-rate formula inverts compounding: for a positive total
growth `g` over `y > 0` years, `(1 + rate/100)^y = g` where
`rate = (g^(1/y) - 1) * 100`. -/
theorem compound_rpow (g : ℝ) (hg : 0 < g) (y : ℤ) (hy : 0 < y) :
    (1 + (g ^ ((1 : ℝ) / (y : ℝ)) - 1) * 100 / 100) ^ y.toNat = g := by
  have hyR : ((y : ℤ) : ℝ) ≠ 0 := by
    exact_mod_cast hy.ne'
  have h1 : 1 + (g ^ ((1 : ℝ) / (y : ℝ)) - 1) * 100 / 100 = g ^ ((1 : ℝ) / (y : ℝ)) := by
    ring
  rw [h1, ← Real.rpow_natCast (g ^ ((1 : ℝ) / (y : ℝ))) y.toNat, ← Real.rpow_mul hg.le]
  have h2 : ((y.toNat : ℕ) : ℝ) = (y : ℝ) := by
    rw [← Int.cast_natCast, Int.toNat_of_nonneg hy.le]
  rw [h2, one_div, inv_mul_cancel₀ hyR, Real.rpow_one]

/-- C1: the spec requires `start_year == end_year` to yield "not computable"
(`None`), never a propagated division-by-zero.  The code does not guard this
case: with a record present at the shared year, `years_diff = 0` and the
Python expression `1/years_diff` raises `ZeroDivisionError`.  Evaluated here
on the spec §8 dataset at `start_year = end_year = 2000`. -/
theorem c1_equal_years_raise_zero_division :
    calculate_metrics specExample "IT" 2000 2000 = .error .zeroDivision := rfl

/-- C2: if no record exists for the industry at exactly `start_year` or at
exactly `end_year`, `calculate_metrics` returns `None` (no exception). -/
theorem c2_missing_endpoint_returns_none (data : List Record) (sector : String)
    (sy ey : Int)
    (h : (∀ r ∈ data, ¬(r.otrasl = sector ∧ r.god = sy)) ∨
         (∀ r ∈ data, ¬(r.otrasl = sector ∧ r.god = ey))) :
    calculate_metrics data sector sy ey = .ok none :=
  calculate_metrics_none data sector sy ey
    (h.imp (firstRecord_eq_none data sector sy) (firstRecord_eq_none data sector ey))

theorem c2_witness :
    ((∀ r ∈ specExample, ¬(r.otrasl = "IT" ∧ r.god = 1999)) ∨
      (∀ r ∈ specExample, ¬(r.otrasl = "IT" ∧ r.god = 2020))) ∧
    calculate_metrics specExample "IT" 1999 2020 = .ok none :=
  ⟨Or.inl (by decide), c2_missing_endpoint_returns_none specExample "IT" 1999 2020
    (Or.inl (by decide))⟩

/-- C3: on success with `start_year < end_year`, `nominal_growth` is the
end-year nominal salary divided by the start-year nominal salary, and
`real_growth` the same ratio of real salaries (salaries read from the first
matching rows). -/
theorem c3_growth_ratios (data : List Record) (sector : String) (sy ey : Int)
    (s e : Record) (m : Metrics)
    (hs : firstRecord data sector sy = some s)
    (he : firstRecord data sector ey = some e)
    (hlt : sy < ey)
    (hm : calculate_metrics data sector sy ey = .ok (some m)) :
    m.nominal_growth = e.zarplata / s.zarplata ∧
    m.real_growth = e.realnaya_zarplata / s.realnaya_zarplata := by
  obtain ⟨s', e', hs', he', _, _, _, hmeq⟩ := calculate_metrics_inv data sector sy ey m hm
  obtain rfl : s' = s := Option.some.inj (hs'.symm.trans hs)
  obtain rfl : e' = e := Option.some.inj (he'.symm.trans he)
  subst hmeq
  exact ⟨rfl, rfl⟩

theorem c3_witness :
    firstRecord specExample "IT" 2000 = some ⟨"IT", 2000, 10000, 10000, 0, 1⟩ ∧
    firstRecord specExample "IT" 2020 = some ⟨"IT", 2020, 80000, 40000, 0, 1⟩ ∧
    (2000 : ℤ) < 2020 ∧
    calculate_metrics specExample "IT" 2000 2020 = .ok (some exampleMetrics) ∧
    exampleMetrics.nominal_growth = 80000 / 10000 ∧
    exampleMetrics.real_growth = 40000 / 10000 :=
  ⟨rfl, rfl, by decide, exampleMetrics_eq,
    c3_growth_ratios specExample "IT" 2000 2020 _ _ exampleMetrics rfl rfl
      (by decide) exampleMetrics_eq⟩

/-- C4: on success with `start_year < end_year`, the returned annualized
rates are `(nominal_growth^(1/years) - 1) * 100` and
`(real_growth^(1/years) - 1) * 100` with `years = end_year - start_year`. -/
theorem c4_annualized_rate_formula (data : List Record) (sector : String)
    (sy ey : Int) (m : Metrics)
    (hlt : sy < ey)
    (hm : calculate_metrics data sector sy ey = .ok (some m)) :
    m.avg_nominal_growth =
      ((m.nominal_growth : ℝ) ^ ((1 : ℝ) / ((ey - sy : ℤ) : ℝ)) - 1) * 100 ∧
    m.avg_real_growth =
      ((m.real_growth : ℝ) ^ ((1 : ℝ) / ((ey - sy : ℤ) : ℝ)) - 1) * 100 := by
  obtain ⟨s, e, _, _, _, _, _, hmeq⟩ := calculate_metrics_inv data sector sy ey m hm
  subst hmeq
  exact ⟨rfl, rfl⟩

theorem c4_witness :
    (2000 : ℤ) < 2020 ∧
    calculate_metrics specExample "IT" 2000 2020 = .ok (some exampleMetrics) ∧
    exampleMetrics.avg_nominal_growth =
      ((exampleMetrics.nominal_growth : ℝ) ^ ((1 : ℝ) / ((2020 - 2000 : ℤ) : ℝ)) - 1) * 100 ∧
    exampleMetrics.avg_real_growth =
      ((exampleMetrics.real_growth : ℝ) ^ ((1 : ℝ) / ((2020 - 2000 : ℤ) : ℝ)) - 1) * 100 :=
  ⟨by decide, exampleMetrics_eq,
    c4_annualized_rate_formula specExample "IT" 2000 2020 exampleMetrics
      (by decide) exampleMetrics_eq⟩

/-- C5: compounding the returned annualized rate over
`years = end_year - start_year` periods reproduces the total growth ratio
exactly (in the exact-arithmetic model), for both the nominal and the real
rate.  The dataset is assumed to satisfy the spec §3 invariant of strictly
positive salaries. -/
theorem c5_compounding_reproduces_growth (data : List Record) (sector : String)
    (sy ey : Int) (m : Metrics)
    (hpos : PositiveSalaries data)
    (hlt : sy < ey)
    (hm : calculate_metrics data sector sy ey = .ok (some m)) :
    (1 + m.avg_nominal_growth / 100) ^ (ey - sy).toNat = (m.nominal_growth : ℝ) ∧
    (1 + m.avg_real_growth / 100) ^ (ey - sy).toNat = (m.real_growth : ℝ) := by
  obtain ⟨s, e, hs, he, _, _, _, hmeq⟩ := calculate_metrics_inv data sector sy ey m hm
  have hsp := firstRecord_salary_pos data sector sy s hpos hs
  have hep := firstRecord_salary_pos data sector ey e hpos he
  subst hmeq
  constructor
  · exact compound_rpow _ (by exact_mod_cast div_pos hep.1 hsp.1) (ey - sy) (by omega)
  · exact compound_rpow _ (by exact_mod_cast div_pos hep.2 hsp.2) (ey - sy) (by omega)

theorem c5_witness :
    PositiveSalaries specExample ∧ (2000 : ℤ) < 2020 ∧
    calculate_metrics specExample "IT" 2000 2020 = .ok (some exampleMetrics) ∧
    ((1 + exampleMetrics.avg_nominal_growth / 100) ^ ((2020 : ℤ) - 2000).toNat =
        (exampleMetrics.nominal_growth : ℝ) ∧
      (1 + exampleMetrics.avg_real_growth / 100) ^ ((2020 : ℤ) - 2000).toNat =
        (exampleMetrics.real_growth : ℝ)) :=
  ⟨by decide, by decide, exampleMetrics_eq,
    c5_compounding_reproduces_growth specExample "IT" 2000 2020 exampleMetrics
      (by decide) (by decide) exampleMetrics_eq⟩

/-- C6: the filtering step returns exactly the rows whose industry is
selected and whose year lies in `[lo, hi]`; being a sublist of the dataset,
the returned rows are the original rows with every field unchanged. -/
theorem c6_filter_exact_and_unchanged (data : List Record)
    (selected_sectors : List String) (lo hi : Int) :
    (filtered_data data selected_sectors lo hi).Sublist data ∧
    ∀ r : Record, r ∈ filtered_data data selected_sectors lo hi ↔
      (r ∈ data ∧ r.otrasl ∈ selected_sectors ∧ lo ≤ r.god ∧ r.god ≤ hi) := by
  refine ⟨List.filter_sublist data, fun r => ?_⟩
  simp [filtered_data, List.mem_filter, and_assoc, List.elem_iff]

/-- C7: `calculate_metrics` is deterministic — equal datasets, industries and
year arguments give equal results.  The model is a pure function of its
arguments, so a call cannot mutate the dataset. -/
theorem c7_deterministic (d₁ d₂ : List Record) (s₁ s₂ : String)
    (a₁ a₂ b₁ b₂ : Int)
    (hd : d₁ = d₂) (hsec : s₁ = s₂) (ha : a₁ = a₂) (hb : b₁ = b₂) :
    calculate_metrics d₁ s₁ a₁ b₁ = calculate_metrics d₂ s₂ a₂ b₂ := by
  subst hd; subst hsec; subst ha; subst hb; rfl

theorem c7_witness :
    specExample = specExample ∧
    calculate_metrics specExample "IT" 2000 2020 =
      calculate_metrics specExample "IT" 2000 2020 :=
  ⟨rfl, c7_deterministic specExample specExample "IT" "IT" 2000 2000 2020 2020
    rfl rfl rfl rfl⟩

/-- C8: when the filtered dataset is empty, the page shows the warning and
computes no metrics (the warning outcome carries no `calculate_metrics`
result). -/
theorem c8_empty_selection_warns (data : List Record)
    (selected_sectors : List String) (lo hi : Int)
    (h : filtered_data data selected_sectors lo hi = []) :
    render_main data selected_sectors lo hi =
      .warning "Для выбранных параметров данные не найдены. Попробуйте изменить фильтры." := by
  unfold render_main
  rw [h]
  rfl

theorem c8_witness :
    filtered_data specExample [] 2000 2020 = [] ∧
    render_main specExample [] 2000 2020 =
      .warning "Для выбранных параметров данные не найдены. Попробуйте изменить фильтры." :=
  ⟨rfl, c8_empty_selection_warns specExample [] 2000 2020 rfl⟩

/-- C9: duplicate rows for the same (industry, year) do not make
`calculate_metrics` fail; it reads the first matching row in dataset order
at each endpoint year (`iloc[0]`) and ignores the rest. -/
theorem c9_duplicates_use_first_row (data : List Record) (sector : String)
    (sy ey : Int) (s e : Record)
    (hpos : PositiveSalaries data)
    (hs : firstRecord data sector sy = some s)
    (he : firstRecord data sector ey = some e)
    (hne : sy ≠ ey) :
    ∃ m : Metrics, calculate_metrics data sector sy ey = .ok (some m) ∧
      m.start_salary = s.zarplata ∧ m.end_salary = e.zarplata ∧
      m.start_real_salary = s.realnaya_zarplata ∧
      m.end_real_salary = e.realnaya_zarplata := by
  have hsp := firstRecord_salary_pos data sector sy s hpos hs
  exact ⟨_, calculate_metrics_eq_of_found data sector sy ey s e hs he
    hsp.1.ne' hsp.2.ne' (sub_ne_zero.mpr (Ne.symm hne)), rfl, rfl, rfl, rfl⟩

theorem c9_witness :
    PositiveSalaries dupExample ∧
    firstRecord dupExample "IT" 2000 = some ⟨"IT", 2000, 10000, 10000, 0, 1⟩ ∧
    firstRecord dupExample "IT" 2020 = some ⟨"IT", 2020, 80000, 40000, 0, 1⟩ ∧
    (2000 : ℤ) ≠ 2020 ∧
    (∃ m : Metrics, calculate_metrics dupExample "IT" 2000 2020 = .ok (some m) ∧
      m.start_salary = 10000 ∧ m.end_salary = 80000 ∧
      m.start_real_salary = 10000 ∧ m.end_real_salary = 40000) :=
  ⟨by decide, rfl, rfl, by decide,
    c9_duplicates_use_first_row dupExample "IT" 2000 2020
      ⟨"IT", 2000, 10000, 10000, 0, 1⟩ ⟨"IT", 2020, 80000, 40000, 0, 1⟩
      (by decide) rfl rfl (by decide)⟩

/-- C10: with records present at both endpoint years, distinct years, and
the spec §3 positive-salary invariant, `calculate_metrics` succeeds and
returns the structure with exactly the eight fields, each holding the
unrounded computed value. -/
theorem c10_returns_eight_unrounded_fields (data : List Record)
    (sector : String) (sy ey : Int) (s e : Record)
    (hpos : PositiveSalaries data)
    (hs : firstRecord data sector sy = some s)
    (he : firstRecord data sector ey = some e)
    (hne : sy ≠ ey) :
    calculate_metrics data sector sy ey = .ok (some
      { start_salary := s.zarplata
        end_salary := e.zarplata
        start_real_salary := s.realnaya_zarplata
        end_real_salary := e.realnaya_zarplata
        nominal_growth := e.zarplata / s.zarplata
        real_growth := e.realnaya_zarplata / s.realnaya_zarplata
        avg_nominal_growth :=
          (((e.zarplata / s.zarplata : ℚ) : ℝ) ^ ((1 : ℝ) / ((ey - sy : ℤ) : ℝ)) - 1) * 100
        avg_real_growth :=
          (((e.realnaya_zarplata / s.realnaya_zarplata : ℚ) : ℝ) ^
            ((1 : ℝ) / ((ey - sy : ℤ) : ℝ)) - 1) * 100 }) := by
  have hsp := firstRecord_salary_pos data sector sy s hpos hs
  exact calculate_metrics_eq_of_found data sector sy ey s e hs he
    hsp.1.ne' hsp.2.ne' (sub_ne_zero.mpr (Ne.symm hne))

theorem c10_witness :
    PositiveSalaries specExample ∧
    firstRecord specExample "IT" 2000 = some ⟨"IT", 2000, 10000, 10000, 0, 1⟩ ∧
    firstRecord specExample "IT" 2020 = some ⟨"IT", 2020, 80000, 40000, 0, 1⟩ ∧
    (2000 : ℤ) ≠ 2020 ∧
    calculate_metrics specExample "IT" 2000 2020 = .ok (some exampleMetrics) :=
  ⟨by decide, rfl, rfl, by decide,
    c10_returns_eight_unrounded_fields specExample "IT" 2000 2020
      ⟨"IT", 2000, 10000, 10000, 0, 1⟩ ⟨"IT", 2020, 80000, 40000, 0, 1⟩
      (by decide) rfl rfl (by decide)⟩
